import Mathlib

/-!
Verification of the account subsystem of the jira-account-mcp repository.

The subsystem is `src/mcp_atlassian/jira/accounts.py` (class `AccountsMixin`)
together with the value objects of `src/mcp_atlassian/models/jira/account.py`
(`Account`, `TimeLogEntry`).  The code is pure configuration parsing,
dictionary lookups and delegation; it is embedded shallowly:

* Python strings are lists of characters (`PyStr`); the helpers `pySplit`,
  `pySplit1`, `pyStrip`, `pyEndsWith` mirror `str.split`, `str.split(sep, 1)`,
  `str.strip` and `str.endswith` on single-character separators, exactly as
  the source uses them.
* Python dictionaries keyed by strings are association lists with Python's
  insertion semantics (`dictSet` replaces in place on an existing key and
  appends otherwise; `dictGet` is `dict.get`).
* `float()` applied by the duration parser is modelled on finite decimal
  literals (optional sign, digits, one optional point, surrounding blanks),
  represented exactly as mantissa/scale pairs; `int(...)` truncates toward
  zero.  Exponent notation, underscores, `inf` and `nan`, and binary
  floating-point rounding are outside the embedding.
* The collaborators reached through `hasattr` (`get_all_projects`,
  `add_worklog`, `_parse_time_spent`) are `Option`-valued parameters:
  `none` is a missing method, `some f` a present one whose call returns
  `f`'s value.  Wall-clock reads (`time.time()`, `datetime.now()`) are
  parameters of the call.
* A raised exception is an `Except.error` carrying the exception message;
  code that cannot raise is a total function.
-/

namespace JiraAcct

/-- Python strings are modelled as lists of characters. -/
abbrev PyStr := List Char

/-- Accumulator loop behind `pySplit`: Python `str.split(sep)` for a
single-character separator. -/
def pySplitAux (sep : Char) : PyStr → PyStr → List PyStr
  | [], acc => [acc.reverse]
  | c :: cs, acc =>
    if c = sep then acc.reverse :: pySplitAux sep cs []
    else pySplitAux sep cs (c :: acc)

/-- Python `s.split(sep)` for a one-character separator: `"".split(sep)` is
`[""]`, adjacent separators give empty pieces. -/
def pySplit (sep : Char) (s : PyStr) : List PyStr :=
  pySplitAux sep s []

/-- Python `s.split(sep, 1)` for a one-character separator, as the pair of
the text before the first occurrence and the text after it; `none` when the
separator does not occur (so `(pySplit1 sep s).isSome` is Python's
`sep in s`). -/
def pySplit1 (sep : Char) : PyStr → Option (PyStr × PyStr)
  | [] => none
  | c :: cs =>
    if c = sep then some ([], cs)
    else (pySplit1 sep cs).map fun pr => (c :: pr.1, pr.2)

/-- Characters Python `str.strip()` removes (the ASCII whitespace the
configuration strings can contain). -/
def isPyWhitespace (c : Char) : Bool :=
  c = ' ' || c = '\t' || c = '\n' || c = '\r'

/-- Drop leading whitespace. -/
def stripLeading : PyStr → PyStr
  | [] => []
  | c :: cs => if isPyWhitespace c then stripLeading cs else c :: cs

/-- Python `s.strip()`. -/
def pyStrip (s : PyStr) : PyStr :=
  ((stripLeading ((stripLeading s).reverse)).reverse)

/-- Python `s.endswith(c)` for a one-character suffix. -/
def pyEndsWith (c : Char) (s : PyStr) : Bool :=
  match s.getLast? with
  | some d => d = c
  | none => false

/-- Python truthiness of an optional string: `None` and `""` are falsy. -/
def pyTruthy (s : Option PyStr) : Bool :=
  match s with
  | none => false
  | some t => !t.isEmpty

/-- Every character is a decimal digit. -/
def allDigits (s : PyStr) : Bool :=
  s.all Char.isDigit

/-- Value of a string of decimal digits. -/
def digitsNat (s : PyStr) : Nat :=
  s.foldl (fun n c => n * 10 + (c.toNat - 48)) 0

/-- An exact finite decimal: the value is `mant / 10 ^ scale`.  This is the
embedding's representation of the Python floats produced by `float()` on the
duration grammar. -/
structure PyFloat where
  mant : Int
  scale : Nat
deriving DecidableEq

/-- Unsigned decimal literal `digits`, `digits.digits`, `digits.` or
`.digits` as (mantissa, scale); `none` where Python `float()` raises
`ValueError`. -/
def parseDecimal (s : PyStr) : Option (Nat × Nat) :=
  match pySplit1 '.' s with
  | none => if !s.isEmpty && allDigits s then some (digitsNat s, 0) else none
  | some (a, b) =>
    if (!a.isEmpty || !b.isEmpty) && allDigits a && allDigits b then
      some (digitsNat a * 10 ^ b.length + digitsNat b, b.length)
    else none

/-- Python `float(s)` on the modelled grammar: surrounding whitespace is
stripped, an optional single sign precedes the decimal literal.  `none`
models a raised `ValueError`. -/
def pyFloatOfStr (s0 : PyStr) : Option PyFloat :=
  let s := pyStrip s0
  match s with
  | '-' :: rest => (parseDecimal rest).map fun mk => ⟨-(mk.1 : Int), mk.2⟩
  | '+' :: rest => (parseDecimal rest).map fun mk => ⟨(mk.1 : Int), mk.2⟩
  | _ => (parseDecimal s).map fun mk => ⟨(mk.1 : Int), mk.2⟩

/-- Python `int(f * factor)` for a parsed decimal `f`: exact product, then
truncation toward zero (`Int.tdiv`), which is what `int()` does. -/
def pyIntOfFloatTimes (f : PyFloat) (factor : Int) : Int :=
  Int.tdiv (f.mant * factor) ((10 : Int) ^ f.scale)

/-- Python `int(s)` on a string: stripped, optional sign, digits; `none`
models a raised `ValueError` (decimal points are not accepted by `int`). -/
def pyIntOfStr (s0 : PyStr) : Option Int :=
  let s := pyStrip s0
  match s with
  | '-' :: rest => if !rest.isEmpty && allDigits rest then some (-(digitsNat rest : Int)) else none
  | '+' :: rest => if !rest.isEmpty && allDigits rest then some ((digitsNat rest : Int)) else none
  | _ => if !s.isEmpty && allDigits s then some ((digitsNat s : Int)) else none

/-- Python `dict.get(k)` on a string-keyed dictionary modelled as an
association list whose keys are unique by construction. -/
def dictGet {α : Type} : List (PyStr × α) → PyStr → Option α
  | [], _ => none
  | (k0, v0) :: rest, k => if k0 = k then some v0 else dictGet rest k

/-- Python `d[k] = v`: replace in place when the key exists, append
otherwise (insertion order is preserved, as in Python dictionaries). -/
def dictSet {α : Type} : List (PyStr × α) → PyStr → α → List (PyStr × α)
  | [], k, v => [(k, v)]
  | (k0, v0) :: rest, k, v =>
    if k0 = k then (k, v) :: rest else (k0, v0) :: dictSet rest k v

/-- Reference to a Jira user (`JiraUser` of `models/jira/common.py`).  The
account operations never inspect it, so it is an abstract tag. -/
structure JiraUser where
  tag : Nat
deriving DecidableEq

/-- `Account` of `src/mcp_atlassian/models/jira/account.py`: a named group of
project keys with an active flag. -/
structure Account where
  id : PyStr
  name : PyStr
  description : Option PyStr
  project_keys : List PyStr
  is_active : Bool
  created_by : Option JiraUser
deriving DecidableEq

/-- One element of the project list returned by the `get_all_projects`
collaborator: a mapping with an optional `key` field; its other fields are
never read by the account operations and are collapsed into a tag so that
distinct projects stay distinct. -/
structure ProjDict where
  key : Option PyStr
  rest : Nat
deriving DecidableEq

/-- The registry state of `AccountsMixin` after loading: `self._accounts`
and `self._account_project_mappings`. -/
structure RegState where
  accounts : List (PyStr × Account)
  account_project_mappings : List (PyStr × List PyStr)
deriving DecidableEq

/-- The comprehension `[project.get("key", "") for project in all_projects
if project.get("key")]` of `_create_default_account_mapping`, per project:
the key when it is present and truthy (non-empty), nothing otherwise. -/
def default_truthy_key (project : ProjDict) : Option PyStr :=
  match project.key with
  | some k => if k.isEmpty then none else some k
  | none => none

/-- `AccountsMixin._create_default_account_mapping`: build the synthetic
`default` account from the `get_all_projects` collaborator (`none` models a
missing method, which the code treats as an empty project list). -/
def create_default_account_mapping (st : RegState)
    (get_all_projects : Option (List ProjDict)) : RegState :=
  let all_projects := get_all_projects.getD []
  if all_projects.isEmpty then
    let default_account : Account :=
      ⟨"default".data, "Default Account".data,
       some "Default account (no projects available)".data, [], true, none⟩
    ⟨dictSet st.accounts "default".data default_account,
     dictSet st.account_project_mappings "default".data []⟩
  else
    let keys := all_projects.filterMap default_truthy_key
    let default_account : Account :=
      ⟨"default".data, "Default Account".data,
       some "Default account containing all available projects".data, keys, true, none⟩
    ⟨dictSet st.accounts "default".data default_account,
     dictSet st.account_project_mappings "default".data keys⟩

/-- The account a single `;`-separated segment of `ACCOUNT_MAPPINGS`
contributes: `none` when the segment has no `:` (the loop's `continue`),
otherwise the stripped name paired with the `Account` built from the
stripped comma-split tail. -/
def segment_account (account_mapping : PyStr) : Option (PyStr × Account) :=
  match pySplit1 ':' account_mapping with
  | none => none
  | some (account_name, project_keys_str) =>
    let project_keys := (pySplit ',' project_keys_str).map pyStrip
    some (pyStrip account_name,
      ⟨pyStrip account_name, pyStrip account_name, none, project_keys, true, none⟩)

/-- Body of the parsing loop of `AccountsMixin._load_account_mappings`:
insert the segment's account (if any) into both dictionaries. -/
def load_segment (st : RegState) (account_mapping : PyStr) : RegState :=
  match segment_account account_mapping with
  | none => st
  | some (account_id, account) =>
    ⟨dictSet st.accounts account_id account,
     dictSet st.account_project_mappings account_id account.project_keys⟩

/-- `AccountsMixin._load_account_mappings` on a fresh mixin:
`os.getenv("ACCOUNT_MAPPINGS", "")` is `env_account_mappings.getD []`; an
absent or empty string falls back to the default mapping, otherwise each
`;`-segment is parsed in order.  The `except` branch of the source is dead
in the embedding: none of the string operations in the loop can raise. -/
def load_account_mappings (env_account_mappings : Option PyStr)
    (get_all_projects : Option (List ProjDict)) : RegState :=
  let st0 : RegState := ⟨[], []⟩
  let account_mappings := env_account_mappings.getD []
  if account_mappings.isEmpty then
    create_default_account_mapping st0 get_all_projects
  else
    (pySplit ';' account_mappings).foldl load_segment st0

/-- `AccountsMixin.get_account`: `self._accounts.get(account_id)` on the
loaded registry. -/
def get_account (st : RegState) (account_id : PyStr) : Option Account :=
  dictGet st.accounts account_id

/-- `AccountsMixin.get_account_projects`: empty list when the account is
unknown (with a logged warning) or the `get_all_projects` collaborator is
missing; otherwise the live projects whose `key` field (default `""`) is in
the account's membership list, in the collaborator's order.  The function
is total: the source's catch-all never sees a raise from this body. -/
def get_account_projects (st : RegState) (get_all_projects : Option (List ProjDict))
    (account_id : PyStr) : List ProjDict :=
  match get_account st account_id with
  | none => []
  | some account =>
    match get_all_projects with
    | none => []
    | some all_projects =>
      all_projects.filter fun project =>
        decide ((project.key.getD []) ∈ account.project_keys)

/-- `AccountsMixin.validate_account_access`: false on unknown account,
inactive account, or a truthy `project_key` outside the membership list;
true otherwise.  Total: the body cannot raise. -/
def validate_account_access (st : RegState) (account_id : PyStr)
    (project_key : Option PyStr) : Bool :=
  match get_account st account_id with
  | none => false
  | some account =>
    if !account.is_active then false
    else if pyTruthy project_key
        && !(decide ((project_key.getD []) ∈ account.project_keys)) then false
    else true

/-- `AccountsMixin._simple_parse_time_spent`: trailing `h`, `m`, `d` pick
the factor (3600, 60, 86400) applied to `float` of the rest, no suffix means
minutes; a failing `float` conversion is the caught `ValueError`, giving the
60-second default. -/
def simple_parse_time_spent (time_spent : PyStr) : Int :=
  if pyEndsWith 'h' time_spent then
    match pyFloatOfStr time_spent.dropLast with
    | some f => pyIntOfFloatTimes f 3600
    | none => 60
  else if pyEndsWith 'm' time_spent then
    match pyFloatOfStr time_spent.dropLast with
    | some f => pyIntOfFloatTimes f 60
    | none => 60
  else if pyEndsWith 'd' time_spent then
    match pyFloatOfStr time_spent.dropLast with
    | some f => pyIntOfFloatTimes f (24 * 3600)
    | none => 60
  else
    match pyFloatOfStr time_spent with
    | some f => pyIntOfFloatTimes f 60
    | none => 60

/-- `TimeLogEntry` of `src/mcp_atlassian/models/jira/account.py`. -/
structure TimeLogEntry where
  id : PyStr
  account_id : PyStr
  project_id : Option PyStr
  issue_key : Option PyStr
  user : Option JiraUser
  time_spent : PyStr
  time_spent_seconds : Int
  description : Option PyStr
  started : PyStr
  created : PyStr
  updated : PyStr
deriving DecidableEq

/-- The mapping returned by the `add_worklog` collaborator, restricted to
the keys `log_time_to_account` reads (`.get` with a default models an
optional field). -/
structure WorklogResult where
  id : Option PyStr
  timeSpentSeconds : Option Int
  started : Option PyStr
  created : Option PyStr
  updated : Option PyStr
deriving DecidableEq

/-- Everything `log_time_to_account` reaches outside the registry: the two
optional collaborator methods found through `hasattr` and the wall clock
(`int(time.time())` and `datetime.now().isoformat()`). -/
structure LogTimeEnv where
  add_worklog : Option (PyStr → PyStr → Option PyStr → Option PyStr → WorklogResult)
  parse_time_spent : Option (PyStr → Int)
  epoch_seconds : Nat
  now_iso : PyStr

/-- The payload of the success dictionary `log_time_to_account` builds
(`message`, `account_name`, and the entry serialized into
`time_log_entry`; the lossy `to_simplified_dict` rendering is not
modelled, the entry itself is carried). -/
structure LogSuccess where
  message : PyStr
  account_name : PyStr
  entry : TimeLogEntry
deriving DecidableEq

/-- The `account_name` expression of both success branches:
`self.get_account(account_id).name if self.get_account(account_id) else
account_id` (a model instance is always truthy). -/
def account_display_name (st : RegState) (account_id : PyStr) : PyStr :=
  match get_account st account_id with
  | some account => account.name
  | none => account_id

/-- The `try` body of `AccountsMixin.log_time_to_account`.  `Except.error`
is a raised `ValueError` carrying its message: the validation failure at the
top and the missing `add_worklog` collaborator both raise here. -/
def log_time_try (st : RegState) (env : LogTimeEnv) (account_id time_spent : PyStr)
    (description project_key issue_key started : Option PyStr) :
    Except PyStr LogSuccess :=
  if validate_account_access st account_id project_key = false then
    Except.error ("Invalid account access for account ".data ++ account_id)
  else if pyTruthy issue_key then
    match env.add_worklog with
    | some add_worklog =>
      let worklog_result := add_worklog (issue_key.getD []) time_spent description started
      let time_log_entry : TimeLogEntry :=
        ⟨worklog_result.id.getD [], account_id, project_key, issue_key, none,
         time_spent, worklog_result.timeSpentSeconds.getD 0, description,
         (if pyTruthy started then started.getD [] else worklog_result.started.getD []),
         worklog_result.created.getD [], worklog_result.updated.getD []⟩
      Except.ok ⟨"Time logged successfully to account ".data ++ account_id,
                 account_display_name st account_id, time_log_entry⟩
    | none => Except.error "add_worklog method not available".data
  else
    let time_spent_seconds :=
      match env.parse_time_spent with
      | some f => f time_spent
      | none => simple_parse_time_spent time_spent
    let time_log_entry : TimeLogEntry :=
      ⟨"account_".data ++ account_id ++ "_".data ++ Nat.toDigits 10 env.epoch_seconds,
       account_id, project_key, none, none, time_spent, time_spent_seconds, description,
       (if pyTruthy started then started.getD [] else env.now_iso),
       env.now_iso, env.now_iso⟩
    Except.ok ⟨"Time logged successfully to account ".data ++ account_id,
               account_display_name st account_id, time_log_entry⟩

/-- What `log_time_to_account` hands back to its caller: the success
dictionary or the `{"success": False, "error": str(e)}` failure envelope. -/
inductive LogResult where
  | success (message account_name : PyStr) (entry : TimeLogEntry)
  | failure (error : PyStr)
deriving DecidableEq

/-- `AccountsMixin.log_time_to_account`, the public entry point: the `try`
body wrapped in the catch-all `except Exception`, which turns every raised
exception — the validation `ValueError` included — into a failure envelope
carrying the exception message.  The function is total: nothing escapes. -/
def log_time_to_account (st : RegState) (env : LogTimeEnv) (account_id time_spent : PyStr)
    (description project_key issue_key started : Option PyStr) : LogResult :=
  match log_time_try st env account_id time_spent description project_key issue_key started with
  | Except.ok r => LogResult.success r.message r.account_name r.entry
  | Except.error e => LogResult.failure e

/-- A loosely typed Python value as it can appear under
`time_spent_seconds` in an API payload handed to
`TimeLogEntry.from_api_response`. -/
inductive PyVal where
  | vNone
  | vInt (n : Int)
  | vStr (s : PyStr)
deriving DecidableEq

/-- `int(x) if x is not None else 0` under `except (ValueError, TypeError):
x = 0`, applied to `data.get("time_spent_seconds", 0)` (an absent key is the
default `0`). -/
def coerce_time_spent_seconds (v : Option PyVal) : Int :=
  match v.getD (PyVal.vInt 0) with
  | PyVal.vNone => 0
  | PyVal.vInt n => n
  | PyVal.vStr s => (pyIntOfStr s).getD 0

/-- `JIRA_DEFAULT_ID` of `models/constants.py`.  That module is not among
the repository's files; no claim depends on its value, only on which fields
receive it, so it is fixed as the empty string. -/
def JIRA_DEFAULT_ID : PyStr := []

/-- The API payload handed to `TimeLogEntry.from_api_response`, restricted
to the keys the constructor reads; an absent key is `none`.  The source
wraps the string fields in `str(...)`: the embedding types them as strings
already, which is what every caller in the repository supplies. -/
structure TimeLogDict where
  id : Option PyStr
  account_id : Option PyStr
  project_id : Option PyStr
  issue_key : Option PyStr
  user : Option JiraUser
  time_spent : Option PyStr
  time_spent_seconds : Option PyVal
  description : Option PyStr
  started : Option PyStr
  created : Option PyStr
  updated : Option PyStr
deriving DecidableEq

/-- `TimeLogEntry.from_api_response`: `none` models falsy or non-dictionary
`data` (both return the default instance `cls()`); otherwise each field is
read with its default, `time_spent_seconds` through the type-safe
coercion. -/
def TimeLogEntry.from_api_response (data : Option TimeLogDict) : TimeLogEntry :=
  match data with
  | none =>
    ⟨JIRA_DEFAULT_ID, JIRA_DEFAULT_ID, none, none, none, [], 0, none, [], [], []⟩
  | some d =>
    ⟨d.id.getD JIRA_DEFAULT_ID, d.account_id.getD JIRA_DEFAULT_ID, d.project_id,
     d.issue_key, d.user, d.time_spent.getD [],
     coerce_time_spent_seconds d.time_spent_seconds, d.description,
     d.started.getD [], d.created.getD [], d.updated.getD []⟩

/-! Concrete fixtures, shared by the witnesses and counterexamples: a
registry loaded from the mapping string the repository's own tests use, a
live project list, and a wall clock. -/

/-- Registry loaded from `team-alpha:PROJ,DEV;team-beta:SUPPORT` with no
project-listing collaborator. -/
def sample_registry : RegState :=
  load_account_mappings (some "team-alpha:PROJ,DEV;team-beta:SUPPORT".data) none

/-- The `team-alpha` account that `sample_registry` holds. -/
def team_alpha : Account :=
  ⟨"team-alpha".data, "team-alpha".data, none, ["PROJ".data, "DEV".data], true, none⟩

/-- A live project list: two projects with keys `PROJ` and `DEV`. -/
def sample_projects : List ProjDict :=
  [⟨some "PROJ".data, 10001⟩, ⟨some "DEV".data, 10002⟩]

/-- A call environment with neither collaborator method present. -/
def sample_env : LogTimeEnv :=
  ⟨none, none, 1700000000, "2024-01-01T10:00:00".data⟩

/-! Dictionary lemmas: inserting a fresh key appends, and keeps other fresh
keys fresh. -/

/-- Inserting under a key the dictionary does not hold appends the pair. -/
theorem dictSet_fresh {α : Type} (d : List (PyStr × α)) (k : PyStr) (v : α)
    (h : dictGet d k = none) : dictSet d k v = d ++ [(k, v)] := by
  induction d with
  | nil => rfl
  | cons hd tl ih =>
    obtain ⟨k0, v0⟩ := hd
    by_cases hk : k0 = k
    · simp only [dictGet, if_pos hk] at h
      exact Option.noConfusion h
    · simp only [dictGet, if_neg hk] at h
      simp only [dictSet, if_neg hk, ih h, List.cons_append]

/-- A key absent from the dictionary and different from the appended one is
absent after the append. -/
theorem dictGet_append_singleton {α : Type} (d : List (PyStr × α)) (k n : PyStr) (v : α)
    (h : dictGet d n = none) (hne : n ≠ k) : dictGet (d ++ [(k, v)]) n = none := by
  induction d with
  | nil =>
    simp only [List.nil_append, dictGet]
    rw [if_neg (fun hc => hne hc.symm)]
  | cons hd tl ih =>
    obtain ⟨k0, v0⟩ := hd
    by_cases hk : k0 = n
    · simp only [dictGet, if_pos hk] at h
      exact Option.noConfusion h
    · simp only [dictGet, if_neg hk] at h
      rw [List.cons_append, dictGet, if_neg hk]
      exact ih h

/-- The account names the segments of a mapping string contribute, in
order. -/
def segment_names (segs : List PyStr) : List PyStr :=
  segs.filterMap fun seg => (segment_account seg).map Prod.fst

/-- Folding the parsing loop over segments whose names are fresh and
pairwise distinct appends one account per contributing segment, in order. -/
theorem foldl_load_segment (segs : List PyStr) (st : RegState)
    (hfresh : ∀ n ∈ segment_names segs, dictGet st.accounts n = none)
    (hnodup : (segment_names segs).Nodup) :
    (segs.foldl load_segment st).accounts = st.accounts ++ segs.filterMap segment_account := by
  induction segs generalizing st with
  | nil => simp
  | cons seg rest ih =>
    cases hseg : segment_account seg with
    | none =>
      have hstep : load_segment st seg = st := by
        rw [load_segment, hseg]
      have hnames : segment_names (seg :: rest) = segment_names rest := by
        simp [segment_names, hseg]
      rw [List.foldl_cons, hstep, List.filterMap_cons, hseg]
      exact ih st (fun n hn => hfresh n (by rw [hnames]; exact hn))
        (by rw [hnames] at hnodup; exact hnodup)
    | some pr =>
      obtain ⟨n, account⟩ := pr
      have hnames : segment_names (seg :: rest) = n :: segment_names rest := by
        simp [segment_names, hseg]
      have hn_fresh : dictGet st.accounts n = none :=
        hfresh n (by rw [hnames]; exact List.mem_cons_self n _)
      have hstep : load_segment st seg =
          ⟨st.accounts ++ [(n, account)],
           dictSet st.account_project_mappings n account.project_keys⟩ := by
        simp only [load_segment, hseg]
        rw [dictSet_fresh st.accounts n account hn_fresh]
      rw [hnames] at hnodup
      have hn_not_rest : n ∉ segment_names rest := (List.nodup_cons.mp hnodup).1
      have hrest_nodup : (segment_names rest).Nodup := (List.nodup_cons.mp hnodup).2
      rw [List.foldl_cons, hstep, List.filterMap_cons, hseg]
      have := ih ⟨st.accounts ++ [(n, account)],
        dictSet st.account_project_mappings n account.project_keys⟩
        (fun m hm => dictGet_append_singleton st.accounts n m account
          (hfresh m (by rw [hnames]; exact List.mem_cons_of_mem n hm))
          (fun hc => hn_not_rest (hc ▸ hm)))
        hrest_nodup
      rw [this]
      simp

/-- On a project list in which every project carries a non-empty key, the
truthy-key filter of `_create_default_account_mapping` is the plain key
projection. -/
theorem filterMap_keys_eq_map (ps : List ProjDict)
    (h : ∀ p ∈ ps, ∃ k, p.key = some k ∧ k ≠ []) :
    ps.filterMap default_truthy_key = ps.map fun p => p.key.getD [] := by
  induction ps with
  | nil => rfl
  | cons p rest ih =>
    obtain ⟨k, hk, hkne⟩ := h p (List.mem_cons_self p rest)
    have hke : k.isEmpty = false := by
      cases k with
      | nil => exact absurd rfl hkne
      | cons c cs => rfl
    simp only [List.filterMap_cons, List.map_cons, default_truthy_key, hk, hke,
      Option.getD_some, Bool.false_eq_true, if_false]
    exact congrArg (k :: ·) (ih fun q hq => h q (List.mem_cons_of_mem p hq))

/-- Shape of the registry `_create_default_account_mapping` builds from a
fresh state: exactly one account, keyed `default`, active, whose key list is
empty when the collaborator is missing or returns nothing and is the live
key projection when every returned project has a truthy key. -/
theorem create_default_shape (col : Option (List ProjDict)) :
    ∃ account : Account,
      (create_default_account_mapping ⟨[], []⟩ col).accounts = [("default".data, account)]
      ∧ account.id = "default".data
      ∧ account.name = "Default Account".data
      ∧ account.is_active = true
      ∧ ((col = none ∨ col = some []) → account.project_keys = [])
      ∧ (∀ ps : List ProjDict, col = some ps →
          (∀ p ∈ ps, ∃ k, p.key = some k ∧ k ≠ []) →
          account.project_keys = ps.map fun p => p.key.getD []) := by
  cases col with
  | none =>
    refine ⟨⟨"default".data, "Default Account".data,
      some "Default account (no projects available)".data, [], true, none⟩,
      rfl, rfl, rfl, rfl, fun _ => rfl, fun ps hps => Option.noConfusion hps⟩
  | some ps =>
    cases ps with
    | nil =>
      refine ⟨⟨"default".data, "Default Account".data,
        some "Default account (no projects available)".data, [], true, none⟩,
        rfl, rfl, rfl, rfl, fun _ => rfl, ?_⟩
      intro ps hps hkeys
      have : ps = [] := (Option.some.injEq _ _ ▸ hps).symm
      subst this
      rfl
    | cons p rest =>
      refine ⟨⟨"default".data, "Default Account".data,
        some "Default account containing all available projects".data,
        (p :: rest).filterMap default_truthy_key,
        true, none⟩, rfl, rfl, rfl, rfl, ?_, ?_⟩
      · rintro (hc | hc)
        · exact Option.noConfusion hc
        · exact List.noConfusion (Option.some.injEq _ _ ▸ hc)
      · intro ps hps hkeys
        have hps' : p :: rest = ps := Option.some.injEq _ _ ▸ hps
        subst hps'
        exact filterMap_keys_eq_map (p :: rest) hkeys

/-- Loading from an absent or empty configuration string is exactly the
default-account fallback on a fresh state. -/
theorem load_empty_is_default (env : Option PyStr) (col : Option (List ProjDict))
    (henv : (env.getD []).isEmpty = true) :
    load_account_mappings env col = create_default_account_mapping ⟨[], []⟩ col := by
  unfold load_account_mappings
  simp [henv]

/-- C3 (amended): when the configuration string is absent or empty, the
registry load falls back to exactly one synthetic `default` account, and
load never raises; a non-empty string that parses to zero accounts leaves
the registry empty instead (see the counterexample). -/
theorem C3_empty_config_defaults (env : Option PyStr) (col : Option (List ProjDict))
    (henv : (env.getD []).isEmpty = true) :
    ∃ account : Account,
      (load_account_mappings env col).accounts = [("default".data, account)]
      ∧ account.id = "default".data ∧ account.is_active = true := by
  obtain ⟨account, h1, h2, _, h4, _, _⟩ := create_default_shape col
  exact ⟨account, (load_empty_is_default env col henv).symm ▸ h1, h2, h4⟩

/-- Witness for C3: the fallback at the concrete input of an unset variable
and a missing project collaborator. -/
theorem C3_empty_config_defaults_witness :
    ∃ account : Account,
      (load_account_mappings none none).accounts = [("default".data, account)]
      ∧ account.id = "default".data ∧ account.is_active = true :=
  C3_empty_config_defaults none none rfl

/-- C3 counterexample: the non-empty string `invalid-format` (no `:` in any
segment, the repository's own test input) parses to zero accounts and the
load leaves the registry empty — no `default` fallback, contradicting the
claim that load never leaves the registry empty. -/
theorem C3_zero_accounts_counterexample :
    (load_account_mappings (some "invalid-format".data) (some sample_projects)).accounts = []
    ∧ (load_account_mappings (some "invalid-format".data)
        (some sample_projects)).account_project_mappings = [] := by
  constructor <;> rfl

/-- C6: for every well-formed mapping string — non-empty, with the names of
its `:`-carrying segments pairwise distinct — the load produces exactly one
account per such segment, in segment order, each with the stripped
comma-split tail as its project-key list (`segment_account` is that
per-segment reading); segments without `:` contribute nothing. -/
theorem C6_wellformed_mapping_load (s : PyStr) (hs : s.isEmpty = false)
    (hnodup : (segment_names (pySplit ';' s)).Nodup) (col : Option (List ProjDict)) :
    (load_account_mappings (some s) col).accounts
      = (pySplit ';' s).filterMap segment_account := by
  unfold load_account_mappings
  simp only [Option.getD_some, hs, Bool.false_eq_true, if_false]
  have := foldl_load_segment (pySplit ';' s) ⟨[], []⟩ (fun n _ => rfl) hnodup
  simpa using this

/-- Witness for C6 at the mapping string of the repository's tests. -/
theorem C6_wellformed_mapping_load_witness :
    (load_account_mappings (some "team-alpha:PROJ,DEV;team-beta:SUPPORT".data) none).accounts
      = (pySplit ';' "team-alpha:PROJ,DEV;team-beta:SUPPORT".data).filterMap segment_account :=
  C6_wellformed_mapping_load "team-alpha:PROJ,DEV;team-beta:SUPPORT".data
    (by decide) (by decide) none

/-- C7: an empty or unset configuration string yields exactly one account,
`default`, active, whose project-key list is the full key projection of the
collaborator's result in order (each returned project carrying a key, as the
collaborator contract promises), and is empty when the collaborator is
missing or returns no projects. -/
theorem C7_default_account_shape (env : Option PyStr) (col : Option (List ProjDict))
    (henv : (env.getD []).isEmpty = true) :
    ∃ account : Account,
      (load_account_mappings env col).accounts = [("default".data, account)]
      ∧ account.id = "default".data
      ∧ account.name = "Default Account".data
      ∧ account.is_active = true
      ∧ ((col = none ∨ col = some []) → account.project_keys = [])
      ∧ (∀ ps : List ProjDict, col = some ps →
          (∀ p ∈ ps, ∃ k, p.key = some k ∧ k ≠ []) →
          account.project_keys = ps.map fun p => p.key.getD []) := by
  obtain ⟨account, h1, hrest⟩ := create_default_shape col
  exact ⟨account, (load_empty_is_default env col henv).symm ▸ h1, hrest⟩

/-- Witness for C7 at an empty string with two live keyed projects. -/
theorem C7_default_account_shape_witness :
    ∃ account : Account,
      (load_account_mappings (some []) (some sample_projects)).accounts
        = [("default".data, account)]
      ∧ account.id = "default".data
      ∧ account.name = "Default Account".data
      ∧ account.is_active = true
      ∧ ((some sample_projects = none ∨ some sample_projects = some []) →
          account.project_keys = [])
      ∧ (∀ ps : List ProjDict, some sample_projects = some ps →
          (∀ p ∈ ps, ∃ k, p.key = some k ∧ k ≠ []) →
          account.project_keys = ps.map fun p => p.key.getD []) :=
  C7_default_account_shape (some []) (some sample_projects) rfl

/-- C5 (amended): validate_account_access returns false exactly when the
account is unknown, the account is inactive, or a non-empty project_key was
supplied that is not in the account's membership list; an empty-string key
behaves as no key supplied (the counterexample shows the original claim
fails there).  The function is total, so it never raises. -/
theorem C5_validate_access_iff (st : RegState) (account_id : PyStr)
    (project_key : Option PyStr) :
    validate_account_access st account_id project_key = false
      ↔ get_account st account_id = none
        ∨ ∃ account, get_account st account_id = some account
            ∧ (account.is_active = false
               ∨ ∃ k, project_key = some k ∧ k ≠ [] ∧ k ∉ account.project_keys) := by
  unfold validate_account_access
  cases hacc : get_account st account_id with
  | none => simp
  | some account =>
    cases hact : account.is_active with
    | false => simp [pyTruthy, hact]
    | true =>
      cases project_key with
      | none => simp [pyTruthy, hact]
      | some k =>
        cases k with
        | nil => simp [pyTruthy, hact]
        | cons c cs =>
          by_cases hmem : (c :: cs) ∈ account.project_keys
          · simp [pyTruthy, hact, hmem]
          · simp [pyTruthy, hact, hmem]

/-- C5 counterexample: `team-alpha` is known and active, the supplied key
`""` is not in its membership list, and yet validation succeeds — the code
treats an empty-string key as no key at all, so the claimed if-and-only-if
characterisation fails at this input. -/
theorem C5_empty_key_counterexample :
    validate_account_access sample_registry "team-alpha".data (some []) = true
    ∧ get_account sample_registry "team-alpha".data = some team_alpha
    ∧ team_alpha.is_active = true
    ∧ ([] : PyStr) ∉ team_alpha.project_keys := by
  decide

/-- C10: for every known, active account, validate_account_access with an
empty-string project key returns true even when the empty string is not in
the membership list — the membership check fires only for a truthy key. -/
theorem C10_empty_key_validates (st : RegState) (account_id : PyStr) (account : Account)
    (hacc : get_account st account_id = some account)
    (hact : account.is_active = true)
    (hmem : ([] : PyStr) ∉ account.project_keys) :
    validate_account_access st account_id (some []) = true := by
  simp only [validate_account_access, hacc]
  simp [pyTruthy, hact]

/-- Witness for C10 at the sample registry's `team-alpha`. -/
theorem C10_empty_key_validates_witness :
    validate_account_access sample_registry "team-alpha".data (some []) = true :=
  C10_empty_key_validates sample_registry "team-alpha".data team_alpha
    (by decide) (by decide) (by decide)

/-- C8: for every known account with the collaborator present,
get_account_projects is exactly the collaborator's list filtered to the
projects whose key field (default `""`) lies in the account's membership
list, in the collaborator's order; an empty intersection gives the empty
list, not an error. -/
theorem C8_account_projects_filter (st : RegState) (all_projects : List ProjDict)
    (account_id : PyStr) (account : Account)
    (hacc : get_account st account_id = some account) :
    get_account_projects st (some all_projects) account_id
        = all_projects.filter
            (fun project => decide ((project.key.getD []) ∈ account.project_keys))
      ∧ ((∀ p ∈ all_projects, (p.key.getD []) ∉ account.project_keys) →
          get_account_projects st (some all_projects) account_id = []) := by
  have h1 : get_account_projects st (some all_projects) account_id
      = all_projects.filter
          (fun project => decide ((project.key.getD []) ∈ account.project_keys)) := by
    simp only [get_account_projects, hacc]
  refine ⟨h1, fun h => ?_⟩
  rw [h1, List.filter_eq_nil_iff]
  intro p hp
  simpa using h p hp

/-- Witness for C8 at the sample registry and project list. -/
theorem C8_account_projects_filter_witness :
    get_account_projects sample_registry (some sample_projects) "team-alpha".data
        = sample_projects.filter
            (fun project => decide ((project.key.getD []) ∈ team_alpha.project_keys))
      ∧ ((∀ p ∈ sample_projects, (p.key.getD []) ∉ team_alpha.project_keys) →
          get_account_projects sample_registry (some sample_projects) "team-alpha".data = []) :=
  C8_account_projects_filter sample_registry sample_projects "team-alpha".data team_alpha
    (by decide)

/-- The part of the duration string the selected branch of
`_simple_parse_time_spent` hands to `float()`: everything but the trailing
unit letter when one of `h`, `m`, `d` is present, the whole string
otherwise. -/
def duration_core (time_spent : PyStr) : PyStr :=
  if pyEndsWith 'h' time_spent || pyEndsWith 'm' time_spent || pyEndsWith 'd' time_spent then
    time_spent.dropLast
  else time_spent

/-- C4: duration parsing in the no-issue-key branch maps `2h` to 7200,
`90m` to 5400, `1d` to 86400, `45` to 2700 (minutes default), and any
string whose numeric part fails `float()` to the 60-second default. -/
theorem C4_duration_parsing :
    simple_parse_time_spent "2h".data = 7200
    ∧ simple_parse_time_spent "90m".data = 5400
    ∧ simple_parse_time_spent "1d".data = 86400
    ∧ simple_parse_time_spent "45".data = 2700
    ∧ ∀ time_spent : PyStr, pyFloatOfStr (duration_core time_spent) = none →
        simple_parse_time_spent time_spent = 60 := by
  refine ⟨by decide, by decide, by decide, by decide, ?_⟩
  intro s h
  by_cases hh : pyEndsWith 'h' s = true
  · have hcore : duration_core s = s.dropLast := by simp [duration_core, hh]
    rw [hcore] at h
    simp [simple_parse_time_spent, hh, h]
  · by_cases hm : pyEndsWith 'm' s = true
    · have hcore : duration_core s = s.dropLast := by simp [duration_core, hm]
      rw [hcore] at h
      simp [simple_parse_time_spent, hh, hm, h]
    · by_cases hd : pyEndsWith 'd' s = true
      · have hcore : duration_core s = s.dropLast := by simp [duration_core, hd]
        rw [hcore] at h
        simp [simple_parse_time_spent, hh, hm, hd, h]
      · have hcore : duration_core s = s := by simp [duration_core, hh, hm, hd]
        rw [hcore] at h
        simp [simple_parse_time_spent, hh, hm, hd, h]

/-- Witness for C4's unparseable clause at a concrete garbage string. -/
theorem C4_duration_parsing_witness : simple_parse_time_spent "banana".data = 60 :=
  C4_duration_parsing.2.2.2.2 "banana".data (by decide)

/-- C1: evaluating the public entry point at a validation-failing input
(unknown account) yields the failure envelope with the exception message —
the internal ValueError is caught by the same top-level handler as every
other failure, so no exception propagates out of log_time_to_account; a
non-validation failure (missing add_worklog collaborator) produces an
envelope the same way.  This refutes the claimed raise-for-validation /
envelope-for-the-rest split. -/
theorem C1_invalid_access_failure_envelope :
    log_time_to_account sample_registry sample_env "invalid-account".data "2h".data
        none (some "PROJ".data) (some "PROJ-123".data) none
      = LogResult.failure "Invalid account access for account invalid-account".data
    ∧ log_time_to_account sample_registry sample_env "team-alpha".data "2h".data
        none (some "PROJ".data) (some "PROJ-123".data) none
      = LogResult.failure "add_worklog method not available".data := by
  decide

/-- C2: evaluating get_account_projects at an unknown account id yields the
ordinary empty-list result — the account is indeed absent from the registry,
and no exception is raised, refuting the claimed AccountNotFound raise
(which the repository's own unit test expects). -/
theorem C2_unknown_account_empty_list :
    get_account_projects sample_registry (some sample_projects) "invalid-account".data = []
    ∧ get_account sample_registry "invalid-account".data = none := by
  decide

/-- An API payload whose `time_spent_seconds` is the negative integer -5. -/
def negative_payload : TimeLogDict :=
  ⟨none, none, none, none, none, none, some (PyVal.vInt (-5)), none, none, none, none⟩

/-- An API payload whose `time_spent_seconds` is an unparseable string. -/
def unparseable_payload : TimeLogDict :=
  ⟨none, none, none, none, none, none, some (PyVal.vStr "oops".data), none, none, none, none⟩

/-- C9 counterexample: from_api_response passes the negative input -5
straight into time_spent_seconds, so the field is not always non-negative;
and the time-logging parse substitutes 60, not 0, on unparseable input. -/
theorem C9_negative_seconds_counterexample :
    (TimeLogEntry.from_api_response (some negative_payload)).time_spent_seconds = -5
    ∧ ¬ (0 ≤ (TimeLogEntry.from_api_response (some negative_payload)).time_spent_seconds)
    ∧ simple_parse_time_spent "abc".data = 60 := by
  decide

/-- C9 (amended): from_api_response's time_spent_seconds is the integer
coercion of the input — 0 for a missing key, a None value, an unparseable
string, or falsy data, and the integer itself (negative included) for an
integer value; the no-issue time-logging path's parse-failure default is 60,
not 0 (see the counterexample and C4). -/
theorem C9_seconds_coercion :
    (TimeLogEntry.from_api_response none).time_spent_seconds = 0
    ∧ (∀ d : TimeLogDict, d.time_spent_seconds = none →
        (TimeLogEntry.from_api_response (some d)).time_spent_seconds = 0)
    ∧ (∀ d : TimeLogDict, d.time_spent_seconds = some PyVal.vNone →
        (TimeLogEntry.from_api_response (some d)).time_spent_seconds = 0)
    ∧ (∀ d : TimeLogDict, ∀ s : PyStr, d.time_spent_seconds = some (PyVal.vStr s) →
        pyIntOfStr s = none →
        (TimeLogEntry.from_api_response (some d)).time_spent_seconds = 0)
    ∧ (∀ d : TimeLogDict, ∀ n : Int, d.time_spent_seconds = some (PyVal.vInt n) →
        (TimeLogEntry.from_api_response (some d)).time_spent_seconds = n) := by
  refine ⟨rfl, ?_, ?_, ?_, ?_⟩ <;>
    intros <;>
    simp [TimeLogEntry.from_api_response, coerce_time_spent_seconds, *]

/-- Witness for C9's unparseable-string clause at a concrete payload. -/
theorem C9_seconds_coercion_witness :
    (TimeLogEntry.from_api_response (some unparseable_payload)).time_spent_seconds = 0 :=
  C9_seconds_coercion.2.2.2.1 unparseable_payload "oops".data rfl (by decide)

end JiraAcct
